import Mathlib

/-!
Shallow embedding of the Ule Msee backend (src/backend/main.py): the
Groq completion client's retry/backoff/fallback loop
(`GroqClient.generate_response`), the bounded in-memory history log
mutated by `ask_question`, and the sorted/truncated read in
`get_history`.  Upstream network behaviour is abstracted as an oracle
assigning each attempt index the outcome of its outbound HTTP call;
wall-clock readings (`time.time()`) are abstracted as an integer-valued
sequence `times`, indexed by the order in which readings are taken
(reading 0 at entry to `generate_response`, reading 1 on the success
path).
-/

namespace UleMsee

/-- Projections of an upstream HTTP response body that the code reads:
`json choices errorMessage` is a JSON body whose `choices` array holds
the listed `message.content` strings (an absent `choices` key and an
empty array both behave as `[]`, since the code tests
`not data.get("choices") or len(data["choices"]) == 0`) and whose
`error.message` field is `errorMessage`; `nonJson text` is a body that
fails JSON parsing, with raw text `text`. -/
inductive Body where
  | json (choices : List String) (errorMessage : Option String)
  | nonJson (text : String)
deriving DecidableEq

/-- Outcome of one outbound call: an HTTP response with a status code and
body, an `httpx.TimeoutException`, or an `httpx.RequestError`. -/
inductive UpstreamOutcome where
  | resp (status : Nat) (body : Body)
  | timeout
  | netError
deriving DecidableEq

/-- The distinct failure exits of `generate_response`, one constructor per
raise site: `emptyChoices` is `HTTPException(500, "Ule Msee couldn\x27t
generate a response")`; `upstreamError status detail` is
`HTTPException(response.status_code, error_detail)`; `timeoutError` is
the 504 raised on a final-attempt timeout; `connectError` the 503 raised
on a final-attempt network error; `exhausted` the
`HTTPException(500, "Ule Msee is temporarily unavailable after multiple
attempts")` raised after the retry loop; `jsonDecode` the JSON decode
exception that escapes when a 200 response has a non-JSON body. -/
inductive GenError where
  | emptyChoices
  | upstreamError (status : Nat) (detail : String)
  | timeoutError
  | connectError
  | exhausted
  | jsonDecode
deriving DecidableEq

/-- The HTTP status code the service surfaces for each failure: the
`status_code` of the raised `HTTPException`, and for the escaping JSON
decode error the 500 produced by the `except Exception` handler in
`ask_question`. -/
def GenError.statusOf : GenError → Nat
  | .emptyChoices => 500
  | .upstreamError s _ => s
  | .timeoutError => 504
  | .connectError => 503
  | .exhausted => 500
  | .jsonDecode => 500

namespace GroqClient

/-- `self.model` set in `GroqClient.__init__`. -/
def model : String := "llama3-70b-8192"

/-- `self.fallback_model` set in `GroqClient.__init__`. -/
def fallback_model : String := "llama3-8b-8192"

/-- `self.max_retries` set in `GroqClient.__init__`. -/
def max_retries : Nat := 3

/-- `model_to_use = self.model if attempt < 2 else self.fallback_model`. -/
def model_to_use (attempt : Nat) : String :=
  if attempt < 2 then model else fallback_model

/-- The `error_detail` string built for a non-2xx response:
`f"Groq API error: {status}"`, then ` - ` followed by the parsed
`error.message` (defaulting to `Unknown error`) when the body is JSON,
or by the raw body text when JSON parsing fails. -/
def error_detail (status : Nat) (body : Body) : String :=
  match body with
  | .json _ msg =>
      "Groq API error: " ++ toString status ++ " - " ++ msg.getD "Unknown error"
  | .nonJson t => "Groq API error: " ++ toString status ++ " - " ++ t

/-- One outbound POST to `/chat/completions`: the attempt index it was
made on, the model named in the payload, and the user-message question. -/
structure Call where
  attempt : Nat
  model : String
  question : String
deriving DecidableEq

/-- Observable run of `generate_response`: its return value or raised
error, the outbound calls in order, and the `asyncio.sleep` durations
(in seconds) in order. -/
structure GenRun where
  result : Except GenError (String × String × Int)
  calls : List Call
  sleeps : List Nat

/-- The body of `for attempt in range(self.max_retries)`, one list element
per remaining attempt index.  Reaching `[]` means the loop completed
without returning, which executes the final
`raise HTTPException(500, "... temporarily unavailable ...")`.
Branches mirror the source: status 200 with a nonempty `choices` returns
`(content, model_to_use, time.time() - start_time)`; 200 with
absent/empty `choices` raises the internal error; 200 with a non-JSON
body lets the decode exception escape; 429 sleeps `2 ** attempt` and
continues unless the attempt is the last (which falls through to the
loop end); any other status sleeps and continues unless last, where it
raises `HTTPException(status, error_detail)`; a timeout continues with
no sleep unless last (504); a network error sleeps and continues unless
last (503). -/
def attemptLoop (question : String) (oracle : Nat → UpstreamOutcome)
    (times : Nat → Int) : List Nat → GenRun
  | [] => { result := .error .exhausted, calls := [], sleeps := [] }
  | attempt :: rest =>
    let m := model_to_use attempt
    let call : Call := ⟨attempt, m, question⟩
    match oracle attempt with
    | .resp status body =>
      if status = 200 then
        match body with
        | .json choices _ =>
          match choices with
          | [] => { result := .error .emptyChoices, calls := [call], sleeps := [] }
          | c :: _ =>
              { result := .ok (c, m, times 1 - times 0), calls := [call], sleeps := [] }
        | .nonJson _ => { result := .error .jsonDecode, calls := [call], sleeps := [] }
      else if status = 429 then
        if attempt < max_retries - 1 then
          let r := attemptLoop question oracle times rest
          { r with calls := call :: r.calls, sleeps := 2 ^ attempt :: r.sleeps }
        else
          let r := attemptLoop question oracle times rest
          { r with calls := call :: r.calls }
      else
        if attempt < max_retries - 1 then
          let r := attemptLoop question oracle times rest
          { r with calls := call :: r.calls, sleeps := 2 ^ attempt :: r.sleeps }
        else
          { result := .error (.upstreamError status (error_detail status body)),
            calls := [call], sleeps := [] }
    | .timeout =>
        if attempt < max_retries - 1 then
          let r := attemptLoop question oracle times rest
          { r with calls := call :: r.calls }
        else
          { result := .error .timeoutError, calls := [call], sleeps := [] }
    | .netError =>
        if attempt < max_retries - 1 then
          let r := attemptLoop question oracle times rest
          { r with calls := call :: r.calls, sleeps := 2 ^ attempt :: r.sleeps }
        else
          { result := .error .connectError, calls := [call], sleeps := [] }

/-- `GroqClient.generate_response(question)`: runs the attempt loop over
`range(self.max_retries)`. -/
def generate_response (question : String) (oracle : Nat → UpstreamOutcome)
    (times : Nat → Int) : GenRun :=
  attemptLoop question oracle times (List.range max_retries)

end GroqClient

/-- The module constant `MAX_HISTORY_ITEMS = 1000`. -/
def MAX_HISTORY_ITEMS : Nat := 1000

/-- The history-trimming step of `ask_question`:
`history_items.append(history_item)` followed by
`if len(history_items) > MAX_HISTORY_ITEMS: history_items.pop(0)`. -/
def appendHistory {α : Type} (h : List α) (r : α) : List α :=
  let h2 := h ++ [r]
  if h2.length > MAX_HISTORY_ITEMS then h2.drop 1 else h2

/-- One stored history record, the dict built in `ask_question`. -/
structure HistoryItem where
  id : String
  question : String
  response : String
  timestamp : String
  model_used : String
deriving DecidableEq

/-- The `QuestionResponse` payload returned by `ask_question`. -/
structure QuestionResponse where
  response : String
  model_used : String
  response_time : Int
deriving DecidableEq

/-- The `/api/question` handler body: call `generate_response`; on any
raised error re-raise without touching the history; on success build the
history dict (with the fresh uuid `newId` and `datetime.now()` ISO string
`newTimestamp`), append it, trim to capacity, and return the response
payload.  Returns the response-or-error together with the new history
list. -/
def ask_question (question : String) (oracle : Nat → UpstreamOutcome)
    (times : Nat → Int) (newId newTimestamp : String)
    (h : List HistoryItem) : Except GenError QuestionResponse × List HistoryItem :=
  let run := GroqClient.generate_response question oracle times
  match run.result with
  | .error e => (.error e, h)
  | .ok (text, mu, rt) =>
    let item : HistoryItem := ⟨newId, question, text, newTimestamp, mu⟩
    (.ok ⟨text, mu, rt⟩, appendHistory h item)

/-- Python list slicing `l[:n]` for an `int` bound `n`: a nonnegative `n`
keeps the first `n` elements; a negative `n` keeps the first
`len(l) + n` elements (clamped at zero). -/
def pyTake {α : Type} (n : Int) (l : List α) : List α :=
  if 0 ≤ n then l.take n.toNat else l.take ((l.length : Int) + n).toNat

/-- The `/api/history` handler body:
`sorted(history_items, key=lambda x: x["timestamp"], reverse=True)[:limit]`,
a stable descending sort on the timestamp string followed by a Python
slice by the raw `int` query parameter `limit`. -/
def get_history (h : List HistoryItem) (limit : Int) : List HistoryItem :=
  pyTake limit (h.mergeSort (fun a b => decide (b.timestamp ≤ a.timestamp)))

end UleMsee

namespace UleMsee

namespace GroqClient

/-! Helper lemmas about the attempt loop. -/

/-- Every outbound call recorded by the attempt loop carries an attempt
index drawn from the loop's index list, the model `model_to_use` picks
for that index, and the caller's question. -/
theorem attemptLoop_calls_spec (q : String) (oracle : Nat → UpstreamOutcome)
    (times : Nat → Int) :
    ∀ (l : List Nat) (c : Call), c ∈ (attemptLoop q oracle times l).calls →
      c.attempt ∈ l ∧ c.model = model_to_use c.attempt ∧ c.question = q := by
  intro l
  induction l with
  | nil =>
    intro c hc
    simp [attemptLoop] at hc
  | cons a rest ih =>
    intro c hc
    have hstep : c = (⟨a, model_to_use a, q⟩ : Call)
        ∨ c ∈ (attemptLoop q oracle times rest).calls := by
      rcases ho : oracle a with ⟨s, b⟩ | _ | _
      · by_cases h200 : s = 200
        · subst h200
          rcases b with ⟨chs, em⟩ | t
          · rcases chs with _ | ⟨c0, cs⟩ <;>
            · simp [attemptLoop, ho] at hc
              exact Or.inl hc
          · simp [attemptLoop, ho] at hc
            exact Or.inl hc
        · by_cases h429 : s = 429
          · by_cases hfin : a < max_retries - 1 <;>
            · simp [attemptLoop, ho, h200, h429, hfin] at hc
              exact hc
          · by_cases hfin : a < max_retries - 1
            · simp [attemptLoop, ho, h200, h429, hfin] at hc
              exact hc
            · simp [attemptLoop, ho, h200, h429, hfin] at hc
              exact Or.inl hc
      · by_cases hfin : a < max_retries - 1
        · simp [attemptLoop, ho, hfin] at hc
          exact hc
        · simp [attemptLoop, ho, hfin] at hc
          exact Or.inl hc
      · by_cases hfin : a < max_retries - 1
        · simp [attemptLoop, ho, hfin] at hc
          exact hc
        · simp [attemptLoop, ho, hfin] at hc
          exact Or.inl hc
    rcases hstep with rfl | h2
    · exact ⟨List.mem_cons_self _ _, rfl, rfl⟩
    · rcases ih c h2 with ⟨h1, hm, hq⟩
      exact ⟨List.mem_cons_of_mem _ h1, hm, hq⟩

/-- An attempt whose upstream call returns status 200 ends the loop right
there: exactly one call is made from that attempt on, and none of the
exits reachable from a 200 response is the post-loop exhausted error. -/
theorem attemptLoop_resp200 (q : String) (oracle : Nat → UpstreamOutcome)
    (times : Nat → Int) (a : Nat) (rest : List Nat) (b : Body)
    (ho : oracle a = .resp 200 b) :
    (attemptLoop q oracle times (a :: rest)).calls = [⟨a, model_to_use a, q⟩] ∧
    (attemptLoop q oracle times (a :: rest)).result ≠ .error .exhausted := by
  rcases b with ⟨chs, em⟩ | t
  · rcases chs with _ | ⟨c0, cs⟩ <;> simp [attemptLoop, ho]
  · simp [attemptLoop, ho]

/-- A non-final attempt whose upstream call does not return status 200
continues the loop: the run's result is the result of the remaining
attempts, with one extra call recorded. -/
theorem attemptLoop_continue (q : String) (oracle : Nat → UpstreamOutcome)
    (times : Nat → Int) (a : Nat) (rest : List Nat)
    (hfin : a < max_retries - 1) (h200 : ∀ b : Body, oracle a ≠ .resp 200 b) :
    (attemptLoop q oracle times (a :: rest)).result
        = (attemptLoop q oracle times rest).result ∧
    (attemptLoop q oracle times (a :: rest)).calls.length
        = (attemptLoop q oracle times rest).calls.length + 1 := by
  rcases ho : oracle a with ⟨s, b⟩ | _ | _
  · have hs : ¬ s = 200 := by
      intro hcon
      exact h200 b (by rw [ho, hcon])
    by_cases h429 : s = 429 <;> simp [attemptLoop, ho, hs, h429, hfin]
  · simp [attemptLoop, ho, hfin]
  · simp [attemptLoop, ho, hfin]

/-- A run consisting only of the final attempt (index 2) reaches the
post-loop exhausted error exactly when that attempt's call returns
HTTP 429, and it always makes exactly one call. -/
theorem attemptLoop_final (q : String) (oracle : Nat → UpstreamOutcome)
    (times : Nat → Int) :
    ((attemptLoop q oracle times [2]).result = .error .exhausted ↔
      ∃ b : Body, oracle 2 = .resp 429 b) ∧
    (attemptLoop q oracle times [2]).calls.length = 1 := by
  have hfin : ¬ (2 < max_retries - 1) := by simp [max_retries]
  rcases ho : oracle 2 with ⟨s, b⟩ | _ | _
  · by_cases h200 : s = 200
    · subst h200
      have h := attemptLoop_resp200 q oracle times 2 [] b ho
      refine ⟨?_, by rw [h.1]; rfl⟩
      constructor
      · intro hcon
        exact absurd hcon h.2
      · rintro ⟨b2, hb2⟩
        simp at hb2
    · by_cases h429 : s = 429
      · subst h429
        constructor
        · simp only [attemptLoop, ho]
          simp only [if_neg h200, if_pos rfl, if_neg hfin]
          simp [attemptLoop]
        · simp [attemptLoop, ho, h200, hfin]
      · constructor
        · simp only [attemptLoop, ho]
          simp only [if_neg h200, if_neg h429, if_neg hfin]
          constructor
          · intro hcon
            simp at hcon
          · rintro ⟨b2, hb2⟩
            simp at hb2
            exact absurd hb2.1 h429
        · simp [attemptLoop, ho, h200, h429, hfin]
  · constructor
    · simp only [attemptLoop, ho]
      simp only [if_neg hfin]
      constructor
      · intro hcon
        simp at hcon
      · rintro ⟨b2, hb2⟩
        exact absurd hb2 (by simp)
    · simp [attemptLoop, ho, hfin]
  · constructor
    · simp only [attemptLoop, ho]
      simp only [if_neg hfin]
      constructor
      · intro hcon
        simp at hcon
      · rintro ⟨b2, hb2⟩
        exact absurd hb2 (by simp)
    · simp [attemptLoop, ho, hfin]

end GroqClient

/-! Helper lemmas about the history log. -/

/-- Appending while strictly below capacity does not evict. -/
theorem appendHistory_of_le {α : Type} (h : List α) (r : α)
    (hle : h.length + 1 ≤ MAX_HISTORY_ITEMS) : appendHistory h r = h ++ [r] := by
  have hc : ¬ ((h ++ [r]).length > MAX_HISTORY_ITEMS) := by
    simp only [List.length_append, List.length_singleton]
    omega
  simp only [appendHistory]
  rw [if_neg hc]

/-- Appending once the log is full evicts exactly the oldest record. -/
theorem appendHistory_of_gt {α : Type} (h : List α) (r : α)
    (hgt : h.length + 1 > MAX_HISTORY_ITEMS) : appendHistory h r = h.tail ++ [r] := by
  have hc : ((h ++ [r]).length > MAX_HISTORY_ITEMS) := by
    simp only [List.length_append, List.length_singleton]
    omega
  have hM : MAX_HISTORY_ITEMS = 1000 := rfl
  have h1 : (1 : Nat) ≤ h.length := by omega
  simp only [appendHistory]
  rw [if_pos hc, List.drop_append_of_le_length h1, List.drop_one]

/-- A sequence of appends that stays within capacity is a plain append. -/
theorem foldl_appendHistory_of_le {α : Type} :
    ∀ (rs h : List α), h.length + rs.length ≤ MAX_HISTORY_ITEMS →
      List.foldl appendHistory h rs = h ++ rs := by
  intro rs
  induction rs with
  | nil => intro h _; simp
  | cons r rest ih =>
    intro h hle
    simp only [List.length_cons] at hle
    rw [List.foldl_cons, appendHistory_of_le h r (by omega), ih]
    · simp
    · simp only [List.length_append, List.length_singleton]
      omega

open GroqClient

/-! Claim theorems. -/

/-- C1 (corrected): a 401 response is not terminal.  The code routes
401/403 through the generic non-2xx branch: it retries with exponential
backoff and, only after `max_retries` attempts, surfaces an error
carrying the 401 status and the upstream body's message; the primary
model is used on attempts 0 and 1 and the fallback model on the final
attempt, with backoff waits of 1 and 2 seconds. -/
theorem auth_401_retried (bodies : Nat → Body) (times : Nat → Int) (q : String) :
    generate_response q (fun k => .resp 401 (bodies k)) times =
      { result := .error (.upstreamError 401 (error_detail 401 (bodies 2))),
        calls := [⟨0, model, q⟩, ⟨1, model, q⟩, ⟨2, fallback_model, q⟩],
        sleeps := [1, 2] } := by
  show attemptLoop q _ times [0, 1, 2] = _
  simp [attemptLoop, model_to_use, max_retries, model, fallback_model]

/-- C1 counterexample: with every attempt answered 401, `generate_response`
makes three outbound calls, not exactly one, and the surfaced error is
the generic upstream error carrying status 401 raised only after the
retries — refuting "authentication error surfaced immediately with
exactly one outbound call and no retry". -/
theorem auth_401_retried_counterexample :
    (generate_response "What is wisdom" (fun _ => .resp 401 (.json [] (some "Invalid API Key")))
        (fun _ => (0 : Int))).calls.length = 3 ∧
    ¬ (generate_response "What is wisdom" (fun _ => .resp 401 (.json [] (some "Invalid API Key")))
        (fun _ => (0 : Int))).calls.length = 1 ∧
    (generate_response "What is wisdom" (fun _ => .resp 401 (.json [] (some "Invalid API Key")))
        (fun _ => (0 : Int))).result =
      .error (.upstreamError 401 "Groq API error: 401 - Invalid API Key") := by
  refine ⟨rfl, by decide, rfl⟩

/-- C2 (corrected): a non-final 429 waits `2 ^ attempt` seconds and
retries (a first-attempt 429 followed by a second-attempt 200-with-choices
succeeds with the model selected for attempt index 1 and exactly one
backoff wait); but when every attempt is rate limited, the final-attempt
429 falls through the loop and `generate_response` surfaces the generic
temporarily-unavailable `exhausted` error with HTTP status 500, not a
rate-limit (429) error. -/
theorem rate_limit_backoff_amended :
    (∀ (q : String) (oracle : Nat → UpstreamOutcome) (times : Nat → Int)
        (b : Body) (c : String) (cs : List String) (em : Option String),
      oracle 0 = .resp 429 b → oracle 1 = .resp 200 (.json (c :: cs) em) →
      generate_response q oracle times =
        { result := .ok (c, model_to_use 1, times 1 - times 0),
          calls := [⟨0, model, q⟩, ⟨1, model, q⟩], sleeps := [2 ^ 0] }) ∧
    (∀ (q : String) (bodies : Nat → Body) (times : Nat → Int),
      generate_response q (fun k => .resp 429 (bodies k)) times =
        { result := .error .exhausted,
          calls := [⟨0, model, q⟩, ⟨1, model, q⟩, ⟨2, fallback_model, q⟩],
          sleeps := [2 ^ 0, 2 ^ 1] } ∧
      GenError.statusOf .exhausted = 500) := by
  constructor
  · intro q oracle times b c cs em h0 h1
    show attemptLoop q _ times [0, 1, 2] = _
    simp [attemptLoop, h0, h1, model_to_use, max_retries, model]
  · intro q bodies times
    refine ⟨?_, rfl⟩
    show attemptLoop q _ times [0, 1, 2] = _
    simp [attemptLoop, model_to_use, max_retries, model, fallback_model]

/-- C2 witness: concrete run of the first conjunct of the amended claim. -/
theorem rate_limit_backoff_amended_witness :
    generate_response "What is wisdom"
        (fun k => if k = 0 then .resp 429 (.json [] none)
                  else .resp 200 (.json ["Wisdom is insight"] none))
        (fun _ => (7 : Int)) =
      { result := .ok ("Wisdom is insight", model_to_use 1, (7 : Int) - 7),
        calls := [⟨0, model, "What is wisdom"⟩, ⟨1, model, "What is wisdom"⟩],
        sleeps := [2 ^ 0] } :=
  rate_limit_backoff_amended.1 "What is wisdom" _ _ (.json [] none)
    "Wisdom is insight" [] none rfl rfl

/-- C2 counterexample: with every attempt answered 429, the surfaced
error is the `exhausted` raise whose HTTP status is 500 — no error with
rate-limit status 429 is surfaced, refuting "surfaces a rate-limit
error" on exhaustion. -/
theorem rate_limit_exhausted_counterexample :
    (generate_response "What is wisdom" (fun _ => .resp 429 (.json [] none))
        (fun _ => (0 : Int))).result = .error .exhausted ∧
    GenError.statusOf .exhausted = 500 ∧
    (∀ e : GenError,
      (generate_response "What is wisdom" (fun _ => .resp 429 (.json [] none))
          (fun _ => (0 : Int))).result = .error e → ¬ e.statusOf = 429) := by
  refine ⟨rfl, rfl, ?_⟩
  intro e he
  injection (show (Except.error GenError.exhausted :
      Except GenError (String × String × Int)) = .error e from he) with h1
  subst h1
  decide

/-- C3 (confirmed): when every attempt receives HTTP 500,
`generate_response` makes exactly `max_retries` outbound calls, sleeps
1 and 2 seconds between them, and surfaces an upstream error carrying
status 500 and the detail string built from the final response body,
which contains any `error.message` the body provided. -/
theorem upstream_500_exhaustion (bodies : Nat → Body) (times : Nat → Int) (q : String) :
    generate_response q (fun k => .resp 500 (bodies k)) times =
      { result := .error (.upstreamError 500 (error_detail 500 (bodies 2))),
        calls := [⟨0, model, q⟩, ⟨1, model, q⟩, ⟨2, fallback_model, q⟩],
        sleeps := [1, 2] } ∧
    (generate_response q (fun k => .resp 500 (bodies k)) times).calls.length = max_retries ∧
    (∀ (chs : List String) (m : String),
      error_detail 500 (.json chs (some m)) = "Groq API error: 500 - " ++ m) := by
  refine ⟨?_, ?_, ?_⟩
  · show attemptLoop q _ times [0, 1, 2] = _
    simp [attemptLoop, model_to_use, max_retries, model, fallback_model]
  · rfl
  · intro chs m
    rfl

/-- C4 (corrected, 2xx → 200): if the first attempt returns HTTP 200 with
at least one choice, `generate_response` returns that choice's content,
the primary model identifier, and an elapsed time `times 1 - times 0`
that is nonnegative for any monotone clock, with exactly one outbound
call and no sleeps. -/
theorem success_first_attempt_amended (q : String) (oracle : Nat → UpstreamOutcome)
    (times : Nat → Int) (c : String) (cs : List String) (em : Option String)
    (h0 : oracle 0 = .resp 200 (.json (c :: cs) em)) (hm : Monotone times) :
    generate_response q oracle times =
      { result := .ok (c, model, times 1 - times 0),
        calls := [⟨0, model, q⟩], sleeps := [] } ∧
    0 ≤ times 1 - times 0 := by
  constructor
  · show attemptLoop q _ times [0, 1, 2] = _
    simp [attemptLoop, h0, model_to_use, model]
  · have := hm (show (0 : Nat) ≤ 1 by norm_num)
    omega

/-- C4 witness: concrete successful first attempt under a constant clock. -/
theorem success_first_attempt_amended_witness :
    (generate_response "What is wisdom"
        (fun _ => .resp 200 (.json ["Wisdom comes from experience"] none))
        (fun _ => (5 : Int)) =
      { result := .ok ("Wisdom comes from experience", model, (5 : Int) - 5),
        calls := [⟨0, model, "What is wisdom"⟩], sleeps := [] }) ∧
    (0 : Int) ≤ (5 : Int) - 5 :=
  success_first_attempt_amended "What is wisdom" _ _
    "Wisdom comes from experience" [] none rfl monotone_const

/-- C4 counterexample: a first-attempt 201 response (a 2xx status) with a
choice is not returned as success — the code tests `status_code == 200`,
so the 201 takes the generic error branch, is retried three times and
surfaces an upstream error, refuting the claim for 2xx statuses other
than 200. -/
theorem success_2xx_counterexample :
    (generate_response "What is wisdom" (fun _ => .resp 201 (.json ["Hello"] none))
        (fun _ => (0 : Int))).calls.length = 3 ∧
    ¬ (generate_response "What is wisdom" (fun _ => .resp 201 (.json ["Hello"] none))
        (fun _ => (0 : Int))).calls.length = 1 ∧
    (generate_response "What is wisdom" (fun _ => .resp 201 (.json ["Hello"] none))
        (fun _ => (0 : Int))).result =
      .error (.upstreamError 201 "Groq API error: 201 - Unknown error") := by
  refine ⟨rfl, by decide, rfl⟩

/-- C5 (corrected, 2xx → 200): whenever an attempt receives HTTP 200 with
an absent or empty `choices` array, the loop raises the internal
`emptyChoices` error and terminates immediately: exactly one call is
made from that attempt and the remaining attempts are never used. -/
theorem empty_choices_terminal_amended (q : String) (oracle : Nat → UpstreamOutcome)
    (times : Nat → Int) (a : Nat) (rest : List Nat) (em : Option String)
    (ha : oracle a = .resp 200 (.json [] em)) :
    attemptLoop q oracle times (a :: rest) =
      { result := .error .emptyChoices,
        calls := [⟨a, model_to_use a, q⟩], sleeps := [] } := by
  simp [attemptLoop, ha]

/-- C5 witness: a 200-with-empty-choices on attempt 1 ends the run there. -/
theorem empty_choices_terminal_amended_witness :
    attemptLoop "What is wisdom" (fun _ => .resp 200 (.json [] (some "no output")))
        (fun _ => (0 : Int)) (1 :: [2]) =
      { result := .error .emptyChoices,
        calls := [⟨1, model_to_use 1, "What is wisdom"⟩], sleeps := [] } :=
  empty_choices_terminal_amended "What is wisdom" _ _ 1 [2] (some "no output") rfl

/-- C5 counterexample: a 204 response (a 2xx status) with empty choices is
not treated as the terminal internal error — it takes the generic
non-2xx branch and is retried three times, refuting "no further attempts
are made after that response" for 2xx statuses other than 200. -/
theorem empty_choices_2xx_counterexample :
    (generate_response "What is wisdom" (fun _ => .resp 204 (.json [] none))
        (fun _ => (0 : Int))).calls.length = 3 ∧
    ¬ (generate_response "What is wisdom" (fun _ => .resp 204 (.json [] none))
        (fun _ => (0 : Int))).calls.length = 1 ∧
    (generate_response "What is wisdom" (fun _ => .resp 204 (.json [] none))
        (fun _ => (0 : Int))).result =
      .error (.upstreamError 204 "Groq API error: 204 - Unknown error") := by
  refine ⟨rfl, by decide, rfl⟩

/-- C6 (confirmed): every outbound call of a `generate_response` run uses
the model `model_to_use` assigns to its attempt index, attempt indices
stay below `max_retries`, the primary model is used on the first
`max_retries - 1` attempt indices and the fallback model on the final
one. -/
theorem model_selection (q : String) (oracle : Nat → UpstreamOutcome)
    (times : Nat → Int) (c : Call)
    (hc : c ∈ (generate_response q oracle times).calls) :
    c.model = model_to_use c.attempt ∧ c.attempt < max_retries ∧
    (c.attempt < max_retries - 1 → c.model = model) ∧
    (c.attempt = max_retries - 1 → c.model = fallback_model) := by
  have h := attemptLoop_calls_spec q oracle times (List.range max_retries) c hc
  rcases h with ⟨h1, h2, _⟩
  have hlt : c.attempt < max_retries := List.mem_range.mp h1
  refine ⟨h2, hlt, ?_, ?_⟩
  · intro hsmall
    rw [h2, model_to_use, if_pos]
    simpa [max_retries] using hsmall
  · intro heq
    rw [h2, model_to_use, if_neg]
    simp [heq, max_retries]

/-- C6 witness: the call of a one-shot successful run satisfies the model
selection property. -/
theorem model_selection_witness :
    (⟨0, model, "What is wisdom"⟩ : Call).model
        = model_to_use (⟨0, model, "What is wisdom"⟩ : Call).attempt ∧
    (⟨0, model, "What is wisdom"⟩ : Call).attempt < max_retries ∧
    ((⟨0, model, "What is wisdom"⟩ : Call).attempt < max_retries - 1 →
      (⟨0, model, "What is wisdom"⟩ : Call).model = model) ∧
    ((⟨0, model, "What is wisdom"⟩ : Call).attempt = max_retries - 1 →
      (⟨0, model, "What is wisdom"⟩ : Call).model = fallback_model) :=
  model_selection "What is wisdom" (fun _ => .resp 200 (.json ["Hi"] none))
    (fun _ => (0 : Int)) ⟨0, model, "What is wisdom"⟩
    (show _ ∈ [(⟨0, model, "What is wisdom"⟩ : Call)] from List.mem_singleton.mpr rfl)

/-- C7 (confirmed): `appendHistory` adds the record as the newest entry
(plain append while within capacity, and append-plus-eviction of exactly
the oldest entry when the count would exceed `MAX_HISTORY_ITEMS`);
starting at or below capacity the count never exceeds capacity after an
append; and appending `MAX_HISTORY_ITEMS + 1` distinct records to an
empty log leaves exactly the `MAX_HISTORY_ITEMS` newest records, with
the oldest-inserted record absent and all others present. -/
theorem history_append_spec :
    (∀ (α : Type) (h : List α) (r : α),
      (h.length + 1 ≤ MAX_HISTORY_ITEMS → appendHistory h r = h ++ [r]) ∧
      (h.length + 1 > MAX_HISTORY_ITEMS → appendHistory h r = h.tail ++ [r]) ∧
      (h.length ≤ MAX_HISTORY_ITEMS → (appendHistory h r).length ≤ MAX_HISTORY_ITEMS)) ∧
    (∀ (α : Type) (rs : List α), rs.length = MAX_HISTORY_ITEMS + 1 → rs.Nodup →
      List.foldl appendHistory ([] : List α) rs = rs.tail ∧
      (List.foldl appendHistory ([] : List α) rs).length = MAX_HISTORY_ITEMS ∧
      (∀ x, rs.head? = some x → x ∉ List.foldl appendHistory ([] : List α) rs) ∧
      (∀ x ∈ rs.tail, x ∈ List.foldl appendHistory ([] : List α) rs)) := by
  constructor
  · intro α h r
    refine ⟨appendHistory_of_le h r, appendHistory_of_gt h r, ?_⟩
    intro hle
    by_cases hc : h.length + 1 ≤ MAX_HISTORY_ITEMS
    · rw [appendHistory_of_le h r hc]
      simp only [List.length_append, List.length_singleton]
      omega
    · rw [appendHistory_of_gt h r (by omega)]
      have hM : MAX_HISTORY_ITEMS = 1000 := rfl
      simp only [List.length_append, List.length_singleton, List.length_tail]
      omega
  · intro α rs hlen hnd
    rcases List.eq_nil_or_concat rs with rfl | ⟨ys, z, hrs⟩
    · simp at hlen
    subst hrs
    simp only [List.concat_eq_append] at hlen hnd ⊢
    have hys : ys.length = MAX_HISTORY_ITEMS := by
      simp only [List.length_append, List.length_singleton] at hlen
      omega
    rcases ys with _ | ⟨w, ws⟩
    · exfalso
      simp only [List.length_nil, MAX_HISTORY_ITEMS] at hys
      omega
    have hfold : List.foldl appendHistory ([] : List α) ((w :: ws) ++ [z])
        = appendHistory (w :: ws) z := by
      rw [List.foldl_append, foldl_appendHistory_of_le (w :: ws) [] (by simp [hys])]
      simp
    have happ : appendHistory (w :: ws) z = ws ++ [z] := by
      rw [appendHistory_of_gt (w :: ws) z (by simp [List.length_cons, hys])]
      simp
    have htail : ((w :: ws) ++ [z]).tail = ws ++ [z] := by simp
    refine ⟨?_, ?_, ?_, ?_⟩
    · rw [hfold, happ, htail]
    · rw [hfold, happ]
      simp only [List.length_append, List.length_singleton]
      simp only [List.length_cons] at hys
      omega
    · intro x hx
      simp only [List.cons_append, List.head?_cons, Option.some.injEq] at hx
      subst hx
      rw [hfold, happ]
      have hw : w ∉ ws ++ [z] := (List.nodup_cons.mp (by simpa using hnd)).1
      exact hw
    · intro x hx
      rw [hfold, happ]
      rw [htail] at hx
      exact hx

/-- C7 witness: a within-capacity append stays within capacity, and
appending the 1001 distinct records `0, …, 1000` to an empty log keeps
exactly the records `1, …, 1000`. -/
theorem history_append_spec_witness :
    ((appendHistory ([5] : List Nat) 9).length ≤ MAX_HISTORY_ITEMS) ∧
    (List.foldl appendHistory ([] : List Nat) (List.range 1001) = (List.range 1001).tail ∧
     (List.foldl appendHistory ([] : List Nat) (List.range 1001)).length = MAX_HISTORY_ITEMS ∧
     (∀ x, (List.range 1001).head? = some x →
        x ∉ List.foldl appendHistory ([] : List Nat) (List.range 1001)) ∧
     (∀ x ∈ (List.range 1001).tail,
        x ∈ List.foldl appendHistory ([] : List Nat) (List.range 1001))) :=
  ⟨(history_append_spec.1 Nat [5] 9).2.2 (by simp [MAX_HISTORY_ITEMS]),
   history_append_spec.2 Nat (List.range 1001)
     (by simp [MAX_HISTORY_ITEMS]) (List.nodup_range 1001)⟩

/-- C8 (corrected, limit restricted to nonnegative values): for every
nonnegative `limit`, `get_history` returns records sorted by timestamp
descending, holds at most `limit` entries, returns only records of the
log, and is an idempotent read (equal results for repeated calls with no
mutation, trivially, as the read is pure). -/
theorem get_history_spec (h : List HistoryItem) (limit : Int) (hl : 0 ≤ limit) :
    (get_history h limit).Pairwise (fun a b => b.timestamp ≤ a.timestamp) ∧
    ((get_history h limit).length : Int) ≤ limit ∧
    (∀ x ∈ get_history h limit, x ∈ h) ∧
    get_history h limit = get_history h limit := by
  have hsorted : (h.mergeSort (fun a b => decide (b.timestamp ≤ a.timestamp))).Pairwise
      (fun a b => b.timestamp ≤ a.timestamp) := by
    have := @List.sorted_mergeSort HistoryItem
      (fun a b : HistoryItem => decide (b.timestamp ≤ a.timestamp))
      (fun a b c hab hbc => by
        simp only [decide_eq_true_eq] at *
        exact le_trans hbc hab)
      (fun a b => by
        simp only [Bool.or_eq_true, decide_eq_true_eq]
        exact le_total b.timestamp a.timestamp)
      h
    exact List.Pairwise.imp (fun hab => by simpa using hab) this
  have htake : get_history h limit
      = (h.mergeSort (fun a b => decide (b.timestamp ≤ a.timestamp))).take limit.toNat := by
    simp [get_history, pyTake, hl]
  refine ⟨?_, ?_, ?_, rfl⟩
  · rw [htake]
    exact hsorted.sublist (List.take_sublist _ _)
  · rw [htake]
    have h1 : ((h.mergeSort (fun a b => decide (b.timestamp ≤ a.timestamp))).take
        limit.toNat).length ≤ limit.toNat := by
      simp [List.length_take]
    calc (((h.mergeSort (fun a b => decide (b.timestamp ≤ a.timestamp))).take
            limit.toNat).length : Int)
        ≤ (limit.toNat : Int) := by exact_mod_cast h1
      _ = limit := Int.toNat_of_nonneg hl
  · intro x hx
    rw [htake] at hx
    have := List.take_sublist limit.toNat
      (h.mergeSort (fun a b => decide (b.timestamp ≤ a.timestamp)))
    have hx2 : x ∈ h.mergeSort (fun a b => decide (b.timestamp ≤ a.timestamp)) :=
      this.mem hx
    simpa using hx2

/-- C8 witness: the sorted/bounded/idempotent read properties hold on a
concrete two-record log with limit 2. -/
theorem get_history_spec_witness :
    ((get_history [⟨"id1", "q1", "r1", "2024-01-01T00:00:00", "m"⟩,
        ⟨"id2", "q2", "r2", "2024-01-02T00:00:00", "m"⟩] 2).Pairwise
      (fun a b => b.timestamp ≤ a.timestamp)) ∧
    (((get_history [⟨"id1", "q1", "r1", "2024-01-01T00:00:00", "m"⟩,
        ⟨"id2", "q2", "r2", "2024-01-02T00:00:00", "m"⟩] 2).length : Int) ≤ 2) ∧
    (∀ x ∈ get_history [⟨"id1", "q1", "r1", "2024-01-01T00:00:00", "m"⟩,
        ⟨"id2", "q2", "r2", "2024-01-02T00:00:00", "m"⟩] 2,
      x ∈ [⟨"id1", "q1", "r1", "2024-01-01T00:00:00", "m"⟩,
        ⟨"id2", "q2", "r2", "2024-01-02T00:00:00", "m"⟩]) ∧
    get_history [⟨"id1", "q1", "r1", "2024-01-01T00:00:00", "m"⟩,
        ⟨"id2", "q2", "r2", "2024-01-02T00:00:00", "m"⟩] 2
      = get_history [⟨"id1", "q1", "r1", "2024-01-01T00:00:00", "m"⟩,
        ⟨"id2", "q2", "r2", "2024-01-02T00:00:00", "m"⟩] 2 :=
  get_history_spec _ 2 (by decide)

/-- C8 counterexample: the `limit` query parameter is a raw Python `int`
fed to a slice, so `limit = -1` on a one-record log yields the empty
slice `l[:-1]` whose length 0 is not at most `-1`, refuting "truncated
to at most `limit` entries" for every `limit`. -/
theorem get_history_negative_limit_counterexample :
    get_history [⟨"id1", "q1", "r1", "2024-01-01T00:00:00", "m"⟩] (-1) = [] ∧
    ¬ (((get_history [⟨"id1", "q1", "r1", "2024-01-01T00:00:00", "m"⟩] (-1)).length : Int)
        ≤ -1) := by
  have h1 : get_history [⟨"id1", "q1", "r1", "2024-01-01T00:00:00", "m"⟩] (-1) = [] := by
    simp [get_history, pyTake]
  refine ⟨h1, ?_⟩
  rw [h1]
  decide

/-- C9 (confirmed): `generate_response` does not touch the history log
(its run is a function of the question, oracle and clock only), and
`ask_question` leaves the history list unchanged whenever
`generate_response` fails, appending a record only after a successful
result. -/
theorem history_untouched (q : String) (oracle : Nat → UpstreamOutcome)
    (times : Nat → Int) (newId newTimestamp : String) (h : List HistoryItem) :
    (∀ e : GenError, (generate_response q oracle times).result = .error e →
      ask_question q oracle times newId newTimestamp h = (.error e, h)) ∧
    (∀ (text mu : String) (rt : Int),
      (generate_response q oracle times).result = .ok (text, mu, rt) →
      ask_question q oracle times newId newTimestamp h =
        (.ok ⟨text, mu, rt⟩, appendHistory h ⟨newId, q, text, newTimestamp, mu⟩)) := by
  constructor
  · intro e he
    simp only [ask_question, he]
  · intro text mu rt hok
    simp only [ask_question, hok]

/-- C9 witness: a run failing with a timeout leaves the concrete
one-record history unchanged. -/
theorem history_untouched_witness :
    ask_question "What is wisdom" (fun _ => .timeout) (fun _ => (0 : Int)) "id-1"
        "2024-01-01T00:00:00" [⟨"id-0", "q0", "r0", "2023-01-01T00:00:00", "m"⟩] =
      (.error .timeoutError, [⟨"id-0", "q0", "r0", "2023-01-01T00:00:00", "m"⟩]) :=
  (history_untouched "What is wisdom" (fun _ => .timeout) (fun _ => (0 : Int)) "id-1"
      "2024-01-01T00:00:00" [⟨"id-0", "q0", "r0", "2023-01-01T00:00:00", "m"⟩]).1
    .timeoutError rfl

/-- C10 (confirmed): the post-loop generic temporarily-unavailable
(`exhausted`) failure is surfaced exactly when all `max_retries` calls
were made and the final attempt's upstream call returned HTTP 429; every
other final-attempt outcome returns or raises a more specific error
first. -/
theorem exhausted_iff_final_429 (q : String) (oracle : Nat → UpstreamOutcome)
    (times : Nat → Int) :
    (generate_response q oracle times).result = .error .exhausted ↔
    ((generate_response q oracle times).calls.length = max_retries ∧
      ∃ b : Body, oracle 2 = .resp 429 b) := by
  have hr : generate_response q oracle times = attemptLoop q oracle times [0, 1, 2] := rfl
  rw [hr]
  by_cases h0 : ∃ b : Body, oracle 0 = .resp 200 b
  · rcases h0 with ⟨b, hb⟩
    rcases attemptLoop_resp200 q oracle times 0 [1, 2] b hb with ⟨hc, hne⟩
    refine iff_of_false hne ?_
    rintro ⟨hlen, -⟩
    rw [hc] at hlen
    simp [max_retries] at hlen
  · push_neg at h0
    rcases attemptLoop_continue q oracle times 0 [1, 2]
      (by simp [max_retries]) h0 with ⟨hres0, hlen0⟩
    by_cases h1 : ∃ b : Body, oracle 1 = .resp 200 b
    · rcases h1 with ⟨b, hb⟩
      rcases attemptLoop_resp200 q oracle times 1 [2] b hb with ⟨hc, hne⟩
      refine iff_of_false ?_ ?_
      · rw [hres0]
        exact hne
      · rintro ⟨hlen, -⟩
        rw [hlen0, hc] at hlen
        simp [max_retries] at hlen
    · push_neg at h1
      rcases attemptLoop_continue q oracle times 1 [2]
        (by simp [max_retries]) h1 with ⟨hres1, hlen1⟩
      rcases attemptLoop_final q oracle times with ⟨hiff, hlenf⟩
      rw [hres0, hres1, hlen0, hlen1, hlenf]
      simp [max_retries, hiff]

end UleMsee
